import Mathlib

set_option autoImplicit false
set_option maxHeartbeats 1000000

/-!
Verification of the message classification and translation orchestration
engine of a dual-language translation bot (`bot.py`): per-chat rate
limiting, whitelist authorization, confidence-gated language routing with
a short-text bypass, dual-translation fan-out, and daily statistics
aggregation, shallowly embedded in Lean.

Modelling conventions:
* timestamps are integers (seconds); the code's `datetime` arithmetic only
  ever takes differences and compares them to 60;
* detection confidences are rationals in place of Python floats (only
  order comparisons against the configured threshold occur);
* `defaultdict(int)` statistics maps are association lists from counter
  name to integer, absent keys reading as 0;
* the JSON module used by the persistence layer is an external library and
  is abstracted as a serialize/deserialize pair of functions.
-/

/-- Daily statistics: an association list from counter name to integer
count, modelling Python's `defaultdict(int)` (absent keys read as 0). -/
abbrev Stats := List (String × Int)

/-- Reading a counter: value of the first entry with the given name, 0 if
absent (the `defaultdict(int)` default). -/
def getStat : Stats → String → Int
  | [], _ => 0
  | (k, v) :: rest, name => if k = name then v else getStat rest name

/-- Python `stats[name] += 1` on a `defaultdict(int)`: bump the entry if present,
otherwise create it with value 1. -/
def incrStat : Stats → String → Stats
  | [], name => [(name, 1)]
  | (k, v) :: rest, name =>
      if k = name then (k, v + 1) :: rest else (k, v) :: incrStat rest name

theorem getStat_incrStat (s : Stats) (k name : String) :
    getStat (incrStat s k) name = getStat s name + (if k = name then 1 else 0) := by
  induction s with
  | nil =>
      simp only [incrStat, getStat]
      by_cases h : k = name <;> simp [h, getStat]
  | cons hd tl ih =>
      obtain ⟨k', v⟩ := hd
      by_cases h1 : k' = k
      · subst h1
        by_cases h2 : k' = name <;> simp [incrStat, getStat, h2]
      · by_cases h2 : k' = name
        · subst h2
          have : ¬ (k = k') := fun h => h1 h.symm
          simp [incrStat, getStat, h1, this]
        · simp [incrStat, getStat, h1, h2, ih]

/-! ## Rate limiting (`is_rate_limited`, bot.py lines 145-162)

The rate limiter keeps, per chat, the list of admitted timestamps. On each
check it prunes entries 60 or more seconds old, admits and records the new
timestamp when the pruned window is below the ceiling, and rejects without
recording otherwise. The returned pair is (limited?, stored window). -/

def is_rate_limited (ceiling : Nat) (now : Int) (timestamps : List Int) :
    Bool × List Int :=
  let ts := timestamps.filter (fun t => decide (now - t < 60))
  if ceiling ≤ ts.length then (true, ts)
  else (false, ts ++ [now])

/-- Run a sequence of rate-limit checks from a given stored window,
returning the number of admitted checks and the final window. -/
def runChecks (ceiling : Nat) : List Int → List Int → Nat × List Int
  | state, [] => (0, state)
  | state, t :: ts =>
      let r := is_rate_limited ceiling t state
      let rest := runChecks ceiling r.2 ts
      ((if r.1 then 0 else 1) + rest.1, rest.2)

theorem runChecks_in_window (ceiling : Nat) (a : Int) (ts : List Int) :
    ∀ s : List Int, (∀ e ∈ s, a ≤ e) → (∀ t ∈ ts, a ≤ t ∧ t - a < 60) →
      (runChecks ceiling s ts).1 = min ts.length (ceiling - s.length) := by
  induction ts with
  | nil => intro s _ _; simp [runChecks]
  | cons t ts ih =>
      intro s hs hts
      have hta := hts t (List.mem_cons_self t ts)
      have hfil : s.filter (fun e => decide (t - e < 60)) = s := by
        apply List.filter_eq_self.mpr
        intro e he
        have := hs e he
        simp only [decide_eq_true_eq]
        omega
      have hts' : ∀ u ∈ ts, a ≤ u ∧ u - a < 60 :=
        fun u hu => hts u (List.mem_cons_of_mem t hu)
      by_cases hc : ceiling ≤ s.length
      · have hr : is_rate_limited ceiling t s = (true, s) := by
          simp only [is_rate_limited, hfil]
          rw [if_pos hc]
        have := ih s hs hts'
        simp only [runChecks, hr, if_pos, List.length_cons]
        rw [this]
        omega
      · have hr : is_rate_limited ceiling t s = (false, s ++ [t]) := by
          simp only [is_rate_limited, hfil]
          rw [if_neg hc]
        have hs' : ∀ e ∈ s ++ [t], a ≤ e := by
          intro e he
          rcases List.mem_append.mp he with h | h
          · exact hs e h
          · simp at h; omega
        have := ih (s ++ [t]) hs' hts'
        simp only [List.length_append, List.length_cons, List.length_nil] at this
        simp only [runChecks, hr, List.length_cons]
        rw [this]
        simp only [Bool.false_eq_true, if_false]
        omega

/-- C2: for every chat and every sequence of rate-limit checks issued
within a single 60-second window (more checks than the configured ceiling),
exactly `ceiling` checks are admitted and the rest rejected; a rejected
check stores only the pruned window, never recording its own timestamp, so
rejected calls cannot extend or refill the window. -/
theorem C2_rate_limiter (ceiling : Nat) (a : Int) (ts : List Int)
    (hwin : ∀ t ∈ ts, a ≤ t ∧ t - a < 60) (hover : ceiling < ts.length) :
    (runChecks ceiling [] ts).1 = ceiling ∧
    ts.length - (runChecks ceiling [] ts).1 = ts.length - ceiling ∧
    (∀ (s : List Int) (now : Int), (is_rate_limited ceiling now s).1 = true →
      (is_rate_limited ceiling now s).2 =
        s.filter (fun t => decide (now - t < 60))) := by
  have h := runChecks_in_window ceiling a ts [] (by simp) hwin
  simp only [List.length_nil, Nat.sub_zero] at h
  refine ⟨by omega, by omega, ?_⟩
  intro s now hlim
  by_cases hc : ceiling ≤ (s.filter (fun t => decide (now - t < 60))).length
  · simp [is_rate_limited, hc]
  · simp [is_rate_limited, hc] at hlim

theorem C2_rate_limiter_witness :
    (runChecks 2 [] [0, 10, 20, 30]).1 = 2 :=
  (C2_rate_limiter 2 0 [0, 10, 20, 30] (by decide) (by decide)).1

/-! ## Python string primitives

Character-level models of the Python string methods the bot uses, written
over `List Char` so that every definition evaluates inside the kernel
(`String.toLower` and friends do not reduce there). `lower`/`upper` are
per-character case mapping, as in Python for the ASCII language codes and
usernames this program handles. -/

/-- Python `s.lower()`. -/
def py_lower (s : String) : String := String.mk (s.toList.map Char.toLower)

/-- Python `s.upper()`. -/
def py_upper (s : String) : String := String.mk (s.toList.map Char.toUpper)

/-- Python `s.strip()`: drop leading and trailing whitespace. -/
def py_strip (s : String) : String :=
  String.mk
    (((s.toList.dropWhile Char.isWhitespace).reverse.dropWhile
        Char.isWhitespace).reverse)

/-- Python `s.startswith(pre)`. -/
def py_startswith (s pre : String) : Bool :=
  List.isPrefixOf pre.toList s.toList

/-- Python `s.lstrip("@")`: drop every leading `@` character. -/
def lstrip_at (s : String) : String :=
  String.mk (s.toList.dropWhile (fun c => c == '@'))

/-- Python `s.split("-")[0]`: the portion of a language code before the
first hyphen (its whole text when it has no hyphen). -/
def primary_subtag (code : String) : String :=
  String.mk (code.toList.takeWhile (fun c => c != '-'))

/-! ## Whitelist authorization (`is_chat_authorized`, bot.py lines 167-187)

`loadAdminUsernames` models the startup construction of the username
whitelist (bot.py lines 66-68): each configured name is lower-cased and
stripped of leading `@` characters. The membership test inside
`is_chat_authorized` lower-cases the incoming username but does not strip
`@` from it. A `none` or empty username is falsy in Python and never
matches. -/

/-- The username whitelist as loaded from configuration:
`{name.lower().lstrip("@") for name in config}`. -/
def loadAdminUsernames (names : List String) : List String :=
  names.map (fun name => lstrip_at (py_lower name))

def is_chat_authorized (chatIds : List Int) (admins : List String)
    (chat_id : Int) (username : Option String) : Bool :=
  if chatIds = [] ∧ admins = [] then true
  else if chat_id ∈ chatIds then true
  else
    match username with
    | some u => if u ≠ "" ∧ py_lower u ∈ admins then true else false
    | none => false

/-- C6 counterexample: the claim says the incoming username is lower-cased
and `@`-stripped before the whitelist lookup. The code only lower-cases
it: with username whitelist loaded from `["@x"]` (loaded entry `"x"`), the
sender username `"@x"` is rejected even though its lower-cased,
`@`-stripped form is in the whitelist. -/
theorem C6_counterexample :
    is_chat_authorized [] (loadAdminUsernames ["@x"]) 0 (some "@x") = false ∧
    lstrip_at (py_lower "@x") ∈ loadAdminUsernames ["@x"] ∧
    ¬ ((0 : Int) ∈ ([] : List Int)) := by
  decide

/-- C6 (amended): the function `is_chat_authorized` returns true for all inputs iff both
whitelists are empty; otherwise it returns true exactly when the chat id is
whitelisted or the lower-cased (not `@`-stripped) username is in the
username whitelist, with an absent or empty username treated as no match.
The function is total, so no exception is ever raised. -/
theorem C6_authorizer (chatIds : List Int) (admins : List String) :
    ((chatIds = [] ∧ admins = []) →
      ∀ (cid : Int) (u : Option String),
        is_chat_authorized chatIds admins cid u = true) ∧
    ((∀ (cid : Int) (u : Option String),
        is_chat_authorized chatIds admins cid u = true) →
      chatIds = [] ∧ admins = []) ∧
    (¬ (chatIds = [] ∧ admins = []) →
      ∀ (cid : Int) (u : Option String),
        (is_chat_authorized chatIds admins cid u = true ↔
          (cid ∈ chatIds ∨ ∃ s, u = some s ∧ s ≠ "" ∧ py_lower s ∈ admins))) := by
  refine ⟨?_, ?_, ?_⟩
  · rintro ⟨h1, h2⟩ cid u
    simp [is_chat_authorized, h1, h2]
  · intro hall
    by_contra hne
    obtain ⟨cid, hcid⟩ := Infinite.exists_not_mem_finset chatIds.toFinset
    have hcid' : cid ∉ chatIds := fun h => hcid (List.mem_toFinset.mpr h)
    have := hall cid none
    simp [is_chat_authorized, hne, hcid'] at this
  · intro hne cid u
    simp only [is_chat_authorized, if_neg hne]
    by_cases hc : cid ∈ chatIds
    · simp [hc]
    · simp only [if_neg hc]
      cases u with
      | none => simp [hc]
      | some s =>
          by_cases hs : s ≠ "" ∧ py_lower s ∈ admins
          · simp [hs, hc]
          · simp only [if_neg hs]
            simp [hc]
            intro h1 h2
            exact absurd ⟨h1, h2⟩ hs

theorem C6_authorizer_witness :
    is_chat_authorized [] [] 42 none = true :=
  (C6_authorizer [] []).1 ⟨rfl, rfl⟩ 42 none

/-! ## Admin stats command guard (`stats_command`, bot.py lines 245-267)

The requester is `Option (Option String)`: `none` when
`update.effective_user` is absent, and otherwise the user's optional
username. The Python guard is

  `if not user or user.username and user.username.lower().lstrip("@")
      not in ALLOWED_ADMIN_USERNAMES: return`

which by operator precedence parses as
`(not user) or (user.username and (stripped not in whitelist))`; when the
username is falsy (`None` or empty) the inner conjunction is falsy, the
guard does not fire, and the stats report is sent. The returned Bool is
whether the report is sent. -/

def stats_command_replies (admins : List String) (user : Option (Option String)) :
    Bool :=
  match user with
  | none => false
  | some none => true
  | some (some u) =>
      if u = "" then true
      else decide (lstrip_at (py_lower u) ∈ admins)

/-- C7 (code bug): a requester with no username receives the stats report
even though no identity of theirs is in the username whitelist, while a
named non-whitelisted requester is refused and a whitelisted one is
served. The guard's own log message shows the unauthorized branch was
meant to catch every non-whitelisted requester. -/
theorem C7_stats_command_bug :
    stats_command_replies ["admin"] (some none) = true ∧
    stats_command_replies ["admin"] (some (some "bob")) = false ∧
    stats_command_replies ["admin"] (some (some "@Admin")) = true ∧
    stats_command_replies ["admin"] none = false := by
  decide

/-! ## Daily statistics persistence (`load_daily_stats` / `save_daily_stats`,
bot.py lines 120-140)

The JSON codec (`json.dump` / `json.load`) is an external library: it is
abstracted as a pair of functions `dumps`/`loads` into an arbitrary
serialized type, with its round-trip contract taken as a hypothesis where
needed. A stats file is either missing, unreadable/corrupted (any
exception while opening or parsing), or holds parseable content. The Bool
returned by `load_daily_stats` records whether the corruption warning was
logged. -/

inductive StatsFileState (σ : Type) where
  | missing
  | unreadable
  | content (c : σ)

/-- Python `json.dump(dict(stats), f)`: serialize the counter mapping. -/
def save_daily_stats {σ : Type} (dumps : List (String × Int) → σ)
    (stats : Stats) : σ :=
  dumps stats

/-- Load today's statistics: a missing file yields fresh zeroed counters
without a warning; an unreadable or unparseable file yields fresh zeroed
counters with a logged warning; otherwise the parsed counters are wrapped
back into a `defaultdict(int)`. -/
def load_daily_stats {σ : Type} (loads : σ → Option (List (String × Int))) :
    StatsFileState σ → Stats × Bool
  | .missing => ([], false)
  | .unreadable => ([], true)
  | .content c =>
      match loads c with
      | some d => (d, false)
      | none => ([], true)

/-- C8: for every counter mapping, writing the counters to the persisted
daily stats file and then reloading from that file reproduces the same
counter values, given the (external) JSON codec's round-trip contract. -/
theorem C8_round_trip {σ : Type} (dumps : List (String × Int) → σ)
    (loads : σ → Option (List (String × Int)))
    (hjson : ∀ d, loads (dumps d) = some d) (stats : Stats) :
    (load_daily_stats loads
        (StatsFileState.content (save_daily_stats dumps stats))).1 = stats ∧
    ∀ k, getStat (load_daily_stats loads
        (StatsFileState.content (save_daily_stats dumps stats))).1 k =
      getStat stats k := by
  simp [load_daily_stats, save_daily_stats, hjson]

theorem C8_round_trip_witness :
    (load_daily_stats some
        (StatsFileState.content
          (save_daily_stats id [("total", (3 : Int)), ("a_to_b", 2)]))).1 =
      [("total", 3), ("a_to_b", 2)] :=
  (C8_round_trip id some (fun _ => rfl) [("total", 3), ("a_to_b", 2)]).1

/-- C9: loading from a corrupted or unreadable persisted stats file
returns a fresh counter set in which every counter reads zero, together
with a logged warning; the loader is total, so startup never fails. -/
theorem C9_corrupted_file {σ : Type} (loads : σ → Option (List (String × Int)))
    (fs : StatsFileState σ)
    (hbad : fs = StatsFileState.unreadable ∨
      ∃ c, fs = StatsFileState.content c ∧ loads c = none) :
    load_daily_stats loads fs = ([], true) ∧
    ∀ k, getStat (load_daily_stats loads fs).1 k = 0 := by
  rcases hbad with h | ⟨c, hc, hl⟩
  · subst h; exact ⟨rfl, fun k => rfl⟩
  · subst hc
    simp [load_daily_stats, hl, getStat]

theorem C9_corrupted_file_witness :
    load_daily_stats (fun (_ : Unit) => (none : Option (List (String × Int))))
      (StatsFileState.content ()) = ([], true) :=
  (C9_corrupted_file (fun _ => none) (StatsFileState.content ())
    (Or.inr ⟨(), rfl, rfl⟩)).1

/-! ## Configuration and routing (`handle_message`, bot.py lines 272-399)

`Config` holds the constants read from `config.json` (bot.py lines 50-62).
Confidences and the threshold are rationals. `route` captures the routing
decision of `handle_message` (the confidence gate at lines 321-331 and the
`if`/`elif`/`else` chain at lines 341-358): it is the pure function of the
detection result the pipeline then acts on. -/

structure Config where
  langA : String
  langAName : String
  langAFlag : String
  langB : String
  langBName : String
  langBFlag : String
  maxMessagesPerMinute : Nat
  confidenceThreshold : Rat
  shortTextBypassLimit : Nat

inductive RoutingDecision where
  | TranslateAtoB
  | TranslateBtoA
  | DualTranslate
  | Suppress
deriving DecidableEq

/-- The routing decision of `handle_message` for a detection result
`(source_lang, confidence)` on a stripped message of length `msgLen`:
the confidence gate with its short-text bypass, then language A by
`startswith`-on-primary-subtag or exact match, then language B by exact
match, else dual translation. -/
def route (cfg : Config) (msgLen : Nat) (d : String × Rat) : RoutingDecision :=
  let source_lang := d.1
  let confidence := d.2
  let is_short_text : Bool := decide (msgLen ≤ cfg.shortTextBypassLimit)
  let is_target_lang_short : Bool :=
    is_short_text &&
      (source_lang == py_lower cfg.langA || source_lang == py_lower cfg.langB)
  if decide (confidence < cfg.confidenceThreshold) && !is_target_lang_short then
    RoutingDecision.Suppress
  else if py_startswith source_lang (primary_subtag (py_lower cfg.langA)) ||
      source_lang == py_lower cfg.langA then
    RoutingDecision.TranslateAtoB
  else if source_lang == py_lower cfg.langB then
    RoutingDecision.TranslateBtoA
  else
    RoutingDecision.DualTranslate

/-- A sample configuration in the shape of the source's example
(`language_a` = "zh-CN", `language_b` = "vi", defaults elsewhere). -/
def cfg0 : Config :=
  { langA := "zh-CN"
    langAName := "Chinese"
    langAFlag := "[CN]"
    langB := "vi"
    langBName := "Vietnamese"
    langBFlag := "[VN]"
    maxMessagesPerMinute := 60
    confidenceThreshold := mkRat 7 10
    shortTextBypassLimit := 6 }

/-- C1 counterexample: with langA = "zh-CN", the detected code "zho"
(an ISO 639-2 code) routes to TranslateAtoB, because the code tests
`source_lang.startswith("zh")`; but "zho" neither equals langA nor has
leading subtag equal to langA's leading subtag "zh", so the claim as
stated requires DualTranslate here. The detection passes the confidence
gate. -/
theorem C1_counterexample :
    route cfg0 10 ("zho", mkRat 9 10) = RoutingDecision.TranslateAtoB ∧
    "zho" ≠ cfg0.langA ∧
    "zho" ≠ py_lower cfg0.langA ∧
    primary_subtag "zho" ≠ primary_subtag cfg0.langA ∧
    primary_subtag "zho" ≠ primary_subtag (py_lower cfg0.langA) ∧
    ¬ (mkRat 9 10 < cfg0.confidenceThreshold) := by
  decide

/-- C1 (amended): for every detection result that passes the confidence
gate, the routing decision is TranslateAtoB iff the detected code starts
with langA's leading subtag (a string-prefix test, not a subtag-equality
test) or equals langA (lower-cased) exactly; otherwise it is
TranslateBtoA iff the detected code equals langB (lower-cased) exactly;
otherwise it is DualTranslate. -/
theorem C1_routing (cfg : Config) (msgLen : Nat) (src : String) (conf : Rat)
    (hgate : route cfg msgLen (src, conf) ≠ RoutingDecision.Suppress) :
    (route cfg msgLen (src, conf) = RoutingDecision.TranslateAtoB ↔
      (py_startswith src (primary_subtag (py_lower cfg.langA)) = true ∨
        src = py_lower cfg.langA)) ∧
    (route cfg msgLen (src, conf) = RoutingDecision.TranslateBtoA ↔
      (¬ (py_startswith src (primary_subtag (py_lower cfg.langA)) = true ∨
          src = py_lower cfg.langA) ∧
        src = py_lower cfg.langB)) ∧
    (route cfg msgLen (src, conf) = RoutingDecision.DualTranslate ↔
      (¬ (py_startswith src (primary_subtag (py_lower cfg.langA)) = true ∨
          src = py_lower cfg.langA) ∧
        src ≠ py_lower cfg.langB)) := by
  by_cases hg : (decide (conf < cfg.confidenceThreshold) &&
      !(decide (msgLen ≤ cfg.shortTextBypassLimit) &&
        (src == py_lower cfg.langA || src == py_lower cfg.langB))) = true
  · exfalso
    apply hgate
    simp only [route]
    rw [if_pos hg]
  · have hkey : route cfg msgLen (src, conf) =
        (if py_startswith src (primary_subtag (py_lower cfg.langA)) ||
            src == py_lower cfg.langA then RoutingDecision.TranslateAtoB
          else if src == py_lower cfg.langB then RoutingDecision.TranslateBtoA
          else RoutingDecision.DualTranslate) := by
      simp only [route]
      rw [if_neg hg]
    by_cases hA : (py_startswith src (primary_subtag (py_lower cfg.langA)) ||
        src == py_lower cfg.langA) = true
    · rw [hkey, if_pos hA]
      simp only [Bool.or_eq_true, beq_iff_eq] at hA
      simp [hA]
    · rw [hkey, if_neg hA]
      simp only [Bool.or_eq_true, beq_iff_eq] at hA
      push_neg at hA
      have hA1 : py_startswith src (primary_subtag (py_lower cfg.langA)) = false :=
        Bool.eq_false_iff.mpr hA.1
      by_cases hB : (src == py_lower cfg.langB) = true
      · rw [if_pos hB]
        simp only [beq_iff_eq] at hB
        subst hB
        simp [hA1, hA.2]
      · rw [if_neg hB]
        simp only [beq_iff_eq] at hB
        simp [hA1, hA.2, hB]

theorem C1_routing_witness :
    route cfg0 10 ("zh-tw", mkRat 9 10) = RoutingDecision.TranslateAtoB :=
  ((C1_routing cfg0 10 "zh-tw" (mkRat 9 10) (by decide)).1).mpr
    (Or.inl (by decide))

/-! ## Translation orchestration and the message pipeline

`handle_message` is embedded as a pure function of: the configuration, the
whitelists, the chat identity, whether the sender is the bot itself, the
raw message text, the current time and stored rate window for this chat,
the detection result returned by the backend (`none` on failure), the
backend translation oracle (`translate t` is the result of translating
the message into target code `t`, `none` on failure), and the current
statistics. It returns the reply parts, whether a reply was sent, the
`success_type` value, the updated statistics and the updated rate window.
The two concurrent calls of the dual-translation branch are joined by
`asyncio.gather(task_a, task_b)`, which always delivers results in
argument order, so the join is the pure pair of the two oracle values. -/

def ICON_TRANSLATE : String := "️🌐"

structure HandleResult where
  replyParts : List String
  replied : Bool
  successType : Option String
  stats : Stats
  window : List Int

/-- Reply part for the A-to-B branch (bot.py line 345). -/
def partAtoB (cfg : Config) (translated : String) : String :=
  ICON_TRANSLATE ++ " *" ++ cfg.langAName ++ " -> " ++ cfg.langBName ++ "* " ++
    cfg.langBFlag ++ "\n" ++ translated

/-- Reply part for the B-to-A branch (bot.py line 354). -/
def partBtoA (cfg : Config) (translated : String) : String :=
  ICON_TRANSLATE ++ " *" ++ cfg.langBName ++ " -> " ++ cfg.langAName ++ "* " ++
    cfg.langAFlag ++ "\n" ++ translated

/-- Reply part for the dual branch's translation into language A
(bot.py line 366). -/
def partDualA (cfg : Config) (source_lang result_a : String) : String :=
  ICON_TRANSLATE ++ " *" ++ py_upper source_lang ++ " -> " ++ cfg.langAName ++
    "* " ++ cfg.langAFlag ++ "\n" ++ result_a

/-- Reply part for the dual branch's translation into language B
(bot.py line 368). -/
def partDualB (cfg : Config) (source_lang result_b : String) : String :=
  ICON_TRANSLATE ++ " *" ++ py_upper source_lang ++ " -> " ++ cfg.langBName ++
    "* " ++ cfg.langBFlag ++ "\n" ++ result_b

/-- The translation section of `handle_message` (bot.py lines 338-375):
given the routing decision, produce the reply parts and `success_type`. -/
def translatePhase (cfg : Config) (source_lang : String)
    (decision : RoutingDecision) (translate : String → Option String) :
    List String × Option String :=
  match decision with
  | RoutingDecision.Suppress => ([], none)
  | RoutingDecision.TranslateAtoB =>
      match translate cfg.langB with
      | some translated => ([partAtoB cfg translated], some "a_to_b")
      | none => ([], none)
  | RoutingDecision.TranslateBtoA =>
      match translate cfg.langA with
      | some translated => ([partBtoA cfg translated], some "b_to_a")
      | none => ([], none)
  | RoutingDecision.DualTranslate =>
      let result_a := translate cfg.langA
      let result_b := translate cfg.langB
      let parts :=
        (match result_a with
          | some a => [partDualA cfg source_lang a]
          | none => []) ++
        (match result_b with
          | some b => [partDualB cfg source_lang b]
          | none => [])
      let success_type :=
        match result_a, result_b with
        | some _, some _ => some "other_to_dual"
        | none, none => none
        | _, _ => some "partial_dual"
      (parts, success_type)

/-- The reply-and-count tail of `handle_message` (bot.py lines 377-399):
a non-empty reply is sent and `total` plus the `success_type` counter are
bumped; an empty reply bumps `failed` instead. -/
def finishMessage (stats : Stats) (window : List Int) (parts : List String)
    (success_type : Option String) : HandleResult :=
  if parts.isEmpty then
    { replyParts := parts, replied := false, successType := success_type
      stats := incrStat stats "failed", window := window }
  else
    let stats1 := incrStat stats "total"
    let stats2 :=
      match success_type with
      | some k => incrStat stats1 k
      | none => stats1
    { replyParts := parts, replied := true, successType := success_type
      stats := stats2, window := window }

/-- The per-message pipeline (`handle_message`, bot.py lines 272-399). -/
def handle_message (cfg : Config) (chatIds : List Int) (admins : List String)
    (chat_id : Int) (chat_username : Option String) (senderIsBot : Bool)
    (text : String) (now : Int) (window : List Int)
    (detection : Option (String × Rat)) (translate : String → Option String)
    (stats : Stats) : HandleResult :=
  let original_text := py_strip text
  if original_text = "" then
    { replyParts := [], replied := false, successType := none
      stats := stats, window := window }
  else if py_startswith original_text "/" then
    { replyParts := [], replied := false, successType := none
      stats := stats, window := window }
  else if is_chat_authorized chatIds admins chat_id chat_username = false then
    { replyParts := [], replied := false, successType := none
      stats := stats, window := window }
  else
    let rl := is_rate_limited cfg.maxMessagesPerMinute now window
    if rl.1 || senderIsBot then
      { replyParts := [], replied := false, successType := none
        stats := stats, window := rl.2 }
    else
      match detection with
      | none =>
          { replyParts := [], replied := false, successType := none
            stats := incrStat stats "failed", window := rl.2 }
      | some (source_lang, confidence) =>
          match route cfg original_text.length (source_lang, confidence) with
          | RoutingDecision.Suppress =>
              { replyParts := [], replied := false, successType := none
                stats := stats, window := rl.2 }
          | decision =>
              let tp := translatePhase cfg source_lang decision translate
              finishMessage stats rl.2 tp.1 tp.2

/-- C10: a message whose sender is the bot itself and that passes
authorization is dropped with no reply and no stats mutation, but the
rate-limit check has already run (it is the left operand of the `or`), so
below the ceiling the bot's own message still appends its timestamp to the
chat's rate window, consuming a rate-limit slot. -/
theorem C10_self_message (cfg : Config) (chatIds : List Int)
    (admins : List String) (chat_id : Int) (cu : Option String) (text : String)
    (now : Int) (window : List Int) (detection : Option (String × Rat))
    (translate : String → Option String) (stats : Stats)
    (htext : py_strip text ≠ "")
    (hcmd : py_startswith (py_strip text) "/" = false)
    (hauth : is_chat_authorized chatIds admins chat_id cu = true)
    (hceil : (window.filter (fun t => decide (now - t < 60))).length <
      cfg.maxMessagesPerMinute) :
    handle_message cfg chatIds admins chat_id cu true text now window
        detection translate stats =
      { replyParts := [], replied := false, successType := none
        stats := stats
        window := window.filter (fun t => decide (now - t < 60)) ++ [now] } := by
  have hrl : is_rate_limited cfg.maxMessagesPerMinute now window =
      (false, window.filter (fun t => decide (now - t < 60)) ++ [now]) := by
    simp only [is_rate_limited]
    rw [if_neg (by omega)]
  simp [handle_message, htext, hcmd, hauth, hrl]

theorem C10_self_message_witness :
    handle_message cfg0 [] [] 0 none true "hi" 0 [] none (fun _ => none) [] =
      { replyParts := [], replied := false, successType := none
        stats := [], window := [0] } :=
  C10_self_message cfg0 [] [] 0 none "hi" 0 [] none (fun _ => none) []
    (by decide) (by decide) (by decide) (by decide)

/-- Pipeline reduction: once the text, authorization and rate checks pass
and the sender is not the bot, a detected message is processed according
to its routing decision. -/
theorem handle_message_detected (cfg : Config) (chatIds : List Int)
    (admins : List String) (chat_id : Int) (cu : Option String) (text : String)
    (now : Int) (window : List Int) (src : String) (conf : Rat)
    (translate : String → Option String) (stats : Stats)
    (htext : py_strip text ≠ "")
    (hcmd : py_startswith (py_strip text) "/" = false)
    (hauth : is_chat_authorized chatIds admins chat_id cu = true)
    (hrate : (is_rate_limited cfg.maxMessagesPerMinute now window).1 = false) :
    ∀ d : RoutingDecision,
      route cfg (py_strip text).length (src, conf) = d →
      handle_message cfg chatIds admins chat_id cu false text now window
          (some (src, conf)) translate stats =
        (match d with
          | RoutingDecision.Suppress =>
              { replyParts := [], replied := false, successType := none
                stats := stats
                window := (is_rate_limited cfg.maxMessagesPerMinute now window).2 }
          | d =>
              finishMessage stats
                (is_rate_limited cfg.maxMessagesPerMinute now window).2
                (translatePhase cfg src d translate).1
                (translatePhase cfg src d translate).2) := by
  intro d hd
  cases d <;> simp [handle_message, htext, hcmd, hauth, hrate, hd]

/-- The value `success_type` produced by the translation section is never the
name of the `total` counter. -/
theorem translatePhase_success_type (cfg : Config) (src : String)
    (d : RoutingDecision) (translate : String → Option String) :
    ∀ k, (translatePhase cfg src d translate).2 = some k → k ≠ "total" := by
  intro k hk
  cases d with
  | Suppress => simp [translatePhase] at hk
  | TranslateAtoB =>
      cases h : translate cfg.langB <;> simp [translatePhase, h] at hk
      subst hk; decide
  | TranslateBtoA =>
      cases h : translate cfg.langA <;> simp [translatePhase, h] at hk
      subst hk; decide
  | DualTranslate =>
      cases ha : translate cfg.langA <;> cases hb : translate cfg.langB <;>
        simp [translatePhase, ha, hb] at hk <;> subst hk <;> decide

/-- The reply-and-count tail either sends a reply and bumps `total`, or
sends nothing and bumps `failed`. -/
theorem finishMessage_total_or_failed (stats : Stats) (window : List Int)
    (parts : List String) (st : Option String)
    (hst : ∀ k, st = some k → k ≠ "total") :
    ((finishMessage stats window parts st).replied = true ∧
      getStat (finishMessage stats window parts st).stats "total" =
        getStat stats "total" + 1) ∨
    ((finishMessage stats window parts st).replied = false ∧
      getStat (finishMessage stats window parts st).stats "failed" =
        getStat stats "failed" + 1) := by
  by_cases hp : parts.isEmpty
  · right
    simp [finishMessage, hp, getStat_incrStat]
  · left
    cases st with
    | none => simp [finishMessage, hp, getStat_incrStat]
    | some k =>
        have hk : k ≠ "total" := hst k rfl
        simp [finishMessage, hp, getStat_incrStat, hk]

/-- C3: a detection below the confidence threshold is suppressed — no
reply parts, no reply, no stats mutation — unless the stripped message
length is at most the short-text bypass limit and the detected code is
exactly langA or langB (lower-cased), in which case the pipeline proceeds
to translate: it either replies and bumps `total`, or fails to translate
and bumps `failed`. -/
theorem C3_confidence_gate (cfg : Config) (chatIds : List Int)
    (admins : List String) (chat_id : Int) (cu : Option String) (text : String)
    (now : Int) (window : List Int) (src : String) (conf : Rat)
    (translate : String → Option String) (stats : Stats)
    (htext : py_strip text ≠ "")
    (hcmd : py_startswith (py_strip text) "/" = false)
    (hauth : is_chat_authorized chatIds admins chat_id cu = true)
    (hrate : (is_rate_limited cfg.maxMessagesPerMinute now window).1 = false)
    (hconf : conf < cfg.confidenceThreshold) :
    (¬ ((py_strip text).length ≤ cfg.shortTextBypassLimit ∧
        (src = py_lower cfg.langA ∨ src = py_lower cfg.langB)) →
      handle_message cfg chatIds admins chat_id cu false text now window
          (some (src, conf)) translate stats =
        { replyParts := [], replied := false, successType := none
          stats := stats
          window := (is_rate_limited cfg.maxMessagesPerMinute now window).2 }) ∧
    (((py_strip text).length ≤ cfg.shortTextBypassLimit ∧
        (src = py_lower cfg.langA ∨ src = py_lower cfg.langB)) →
      ((handle_message cfg chatIds admins chat_id cu false text now window
            (some (src, conf)) translate stats).replied = true ∧
        getStat (handle_message cfg chatIds admins chat_id cu false text now
            window (some (src, conf)) translate stats).stats "total" =
          getStat stats "total" + 1) ∨
      ((handle_message cfg chatIds admins chat_id cu false text now window
            (some (src, conf)) translate stats).replied = false ∧
        getStat (handle_message cfg chatIds admins chat_id cu false text now
            window (some (src, conf)) translate stats).stats "failed" =
          getStat stats "failed" + 1)) := by
  have h1 : decide (conf < cfg.confidenceThreshold) = true := decide_eq_true hconf
  constructor
  · intro hnb
    have hbool : (decide ((py_strip text).length ≤ cfg.shortTextBypassLimit) &&
        (src == py_lower cfg.langA || src == py_lower cfg.langB)) = false := by
      by_contra hbt
      rw [Bool.not_eq_false] at hbt
      simp only [Bool.and_eq_true, Bool.or_eq_true, beq_iff_eq,
        decide_eq_true_eq] at hbt
      exact hnb hbt
    have hroute : route cfg (py_strip text).length (src, conf) =
        RoutingDecision.Suppress := by
      simp [route, hbool, h1]
    exact handle_message_detected cfg chatIds admins chat_id cu text now window
      src conf translate stats htext hcmd hauth hrate
      RoutingDecision.Suppress hroute
  · intro hb
    have hbool : (decide ((py_strip text).length ≤ cfg.shortTextBypassLimit) &&
        (src == py_lower cfg.langA || src == py_lower cfg.langB)) = true := by
      simp only [Bool.and_eq_true, Bool.or_eq_true, beq_iff_eq,
        decide_eq_true_eq]
      exact hb
    have hgate : (decide (conf < cfg.confidenceThreshold) &&
        !(decide ((py_strip text).length ≤ cfg.shortTextBypassLimit) &&
          (src == py_lower cfg.langA || src == py_lower cfg.langB))) = false := by
      rw [hbool]
      simp
    have hnotsup : route cfg (py_strip text).length (src, conf) ≠
        RoutingDecision.Suppress := by
      simp only [route]
      rw [if_neg (by rw [hgate]; simp)]
      split
      · decide
      · split <;> decide
    cases hd : route cfg (py_strip text).length (src, conf) with
    | Suppress => exact absurd hd hnotsup
    | TranslateAtoB =>
        rw [handle_message_detected cfg chatIds admins chat_id cu text now
          window src conf translate stats htext hcmd hauth hrate
          RoutingDecision.TranslateAtoB hd]
        exact finishMessage_total_or_failed stats _ _ _
          (translatePhase_success_type cfg src _ translate)
    | TranslateBtoA =>
        rw [handle_message_detected cfg chatIds admins chat_id cu text now
          window src conf translate stats htext hcmd hauth hrate
          RoutingDecision.TranslateBtoA hd]
        exact finishMessage_total_or_failed stats _ _ _
          (translatePhase_success_type cfg src _ translate)
    | DualTranslate =>
        rw [handle_message_detected cfg chatIds admins chat_id cu text now
          window src conf translate stats htext hcmd hauth hrate
          RoutingDecision.DualTranslate hd]
        exact finishMessage_total_or_failed stats _ _ _
          (translatePhase_success_type cfg src _ translate)

theorem C3_confidence_gate_witness :
    ((handle_message cfg0 [] [] 0 none false "hi" 0 []
        (some ("vi", mkRat 3 10)) (fun _ => some "xin") []).replied = true ∧
      getStat (handle_message cfg0 [] [] 0 none false "hi" 0 []
          (some ("vi", mkRat 3 10)) (fun _ => some "xin") []).stats "total" =
        getStat [] "total" + 1) ∨
    ((handle_message cfg0 [] [] 0 none false "hi" 0 []
        (some ("vi", mkRat 3 10)) (fun _ => some "xin") []).replied = false ∧
      getStat (handle_message cfg0 [] [] 0 none false "hi" 0 []
          (some ("vi", mkRat 3 10)) (fun _ => some "xin") []).stats "failed" =
        getStat [] "failed" + 1) :=
  (C3_confidence_gate cfg0 [] [] 0 none "hi" 0 [] "vi" (mkRat 3 10)
    (fun _ => some "xin") [] (by decide) (by decide) (by decide) (by decide)
    (by decide)).2 (by decide)

/-- C5: in a DualTranslate execution the two backend calls are joined as a
pair (the `asyncio.gather` join returns results in argument order, so
completion order is immaterial): if both succeed the outcome is
OtherToDualFull (`success_type = "other_to_dual"`) with exactly the two
parts (A-part, B-part) in that order; if exactly one succeeds the outcome
is OtherToDualPartial (`success_type = "partial_dual"`) with exactly that
one part; if neither succeeds the outcome is Failed — zero parts, no
`success_type`, and the `failed` counter is bumped. -/
theorem C5_dual_translate (cfg : Config) (chatIds : List Int)
    (admins : List String) (chat_id : Int) (cu : Option String) (text : String)
    (now : Int) (window : List Int) (src : String) (conf : Rat)
    (translate : String → Option String) (stats : Stats)
    (htext : py_strip text ≠ "")
    (hcmd : py_startswith (py_strip text) "/" = false)
    (hauth : is_chat_authorized chatIds admins chat_id cu = true)
    (hrate : (is_rate_limited cfg.maxMessagesPerMinute now window).1 = false)
    (hroute : route cfg (py_strip text).length (src, conf) =
      RoutingDecision.DualTranslate) :
    (∀ a b, translate cfg.langA = some a → translate cfg.langB = some b →
      (handle_message cfg chatIds admins chat_id cu false text now window
          (some (src, conf)) translate stats).replyParts =
        [partDualA cfg src a, partDualB cfg src b] ∧
      (handle_message cfg chatIds admins chat_id cu false text now window
          (some (src, conf)) translate stats).successType =
        some "other_to_dual") ∧
    (∀ a, translate cfg.langA = some a → translate cfg.langB = none →
      (handle_message cfg chatIds admins chat_id cu false text now window
          (some (src, conf)) translate stats).replyParts =
        [partDualA cfg src a] ∧
      (handle_message cfg chatIds admins chat_id cu false text now window
          (some (src, conf)) translate stats).successType =
        some "partial_dual") ∧
    (∀ b, translate cfg.langA = none → translate cfg.langB = some b →
      (handle_message cfg chatIds admins chat_id cu false text now window
          (some (src, conf)) translate stats).replyParts =
        [partDualB cfg src b] ∧
      (handle_message cfg chatIds admins chat_id cu false text now window
          (some (src, conf)) translate stats).successType =
        some "partial_dual") ∧
    (translate cfg.langA = none → translate cfg.langB = none →
      (handle_message cfg chatIds admins chat_id cu false text now window
          (some (src, conf)) translate stats).replyParts = [] ∧
      (handle_message cfg chatIds admins chat_id cu false text now window
          (some (src, conf)) translate stats).successType = none ∧
      getStat (handle_message cfg chatIds admins chat_id cu false text now
          window (some (src, conf)) translate stats).stats "failed" =
        getStat stats "failed" + 1) := by
  have hm := handle_message_detected cfg chatIds admins chat_id cu text now
    window src conf translate stats htext hcmd hauth hrate
    RoutingDecision.DualTranslate hroute
  refine ⟨?_, ?_, ?_, ?_⟩
  · intro a b ha hb
    rw [hm]
    simp [translatePhase, ha, hb, finishMessage]
  · intro a ha hb
    rw [hm]
    simp [translatePhase, ha, hb, finishMessage]
  · intro b ha hb
    rw [hm]
    simp [translatePhase, ha, hb, finishMessage]
  · intro ha hb
    rw [hm]
    simp [translatePhase, ha, hb, finishMessage, getStat_incrStat]

theorem C5_dual_translate_witness :
    (handle_message cfg0 [] [] 0 none false "hello" 0 []
        (some ("en", mkRat 95 100)) (fun _ => some "x") []).replyParts =
      [partDualA cfg0 "en" "x", partDualB cfg0 "en" "x"] ∧
    (handle_message cfg0 [] [] 0 none false "hello" 0 []
        (some ("en", mkRat 95 100)) (fun _ => some "x") []).successType =
      some "other_to_dual" :=
  (C5_dual_translate cfg0 [] [] 0 none "hello" 0 [] "en" (mkRat 95 100)
    (fun _ => some "x") [] (by decide) (by decide) (by decide) (by decide)
    (by decide)).1 "x" "x" rfl rfl

/-! ## Statistics aggregation over a sequence of processed messages

A processed message has one of five outcome kinds. `recordOutcome` is the
statistics update `handle_message` performs per message (bot.py lines
390-398): an outcome with a reply bumps `total` and then its
`success_type` counter (`a_to_b`, `b_to_a`, `other_to_dual`,
`partial_dual`); a failed outcome (no reply parts, or failed detection)
bumps only `failed`. -/

inductive OutcomeKind where
  | AtoB
  | BtoA
  | OtherToDualFull
  | OtherToDualPartial
  | Failed
deriving DecidableEq

/-- The outcome-specific counter name of each outcome kind. -/
def outcome_counter : OutcomeKind → String
  | OutcomeKind.AtoB => "a_to_b"
  | OutcomeKind.BtoA => "b_to_a"
  | OutcomeKind.OtherToDualFull => "other_to_dual"
  | OutcomeKind.OtherToDualPartial => "partial_dual"
  | OutcomeKind.Failed => "failed"

/-- Per-message statistics update, by outcome kind. -/
def recordOutcome (stats : Stats) (k : OutcomeKind) : Stats :=
  match k with
  | OutcomeKind.Failed => incrStat stats "failed"
  | k => incrStat (incrStat stats "total") (outcome_counter k)

/-- Statistics after processing a sequence of messages with the given
outcome kinds. -/
def recordOutcomes : Stats → List OutcomeKind → Stats
  | s, [] => s
  | s, k :: ks => recordOutcomes (recordOutcome s k) ks

theorem getStat_recordOutcome_total (s : Stats) (k : OutcomeKind) :
    getStat (recordOutcome s k) "total" =
      getStat s "total" + (if k = OutcomeKind.Failed then 0 else 1) := by
  cases k <;> simp [recordOutcome, outcome_counter, getStat_incrStat]

theorem getStat_recordOutcome_counter (s : Stats) (k j : OutcomeKind) :
    getStat (recordOutcome s k) (outcome_counter j) =
      getStat s (outcome_counter j) + (if j = k then 1 else 0) := by
  cases k <;> cases j <;>
    simp [recordOutcome, outcome_counter, getStat_incrStat]

theorem sum_getStat_recordOutcome (s : Stats) (k : OutcomeKind) :
    getStat (recordOutcome s k) "a_to_b" +
      getStat (recordOutcome s k) "b_to_a" +
      getStat (recordOutcome s k) "other_to_dual" +
      getStat (recordOutcome s k) "partial_dual" +
      getStat (recordOutcome s k) "failed" =
    getStat s "a_to_b" + getStat s "b_to_a" + getStat s "other_to_dual" +
      getStat s "partial_dual" + getStat s "failed" + 1 := by
  cases k <;> simp [recordOutcome, outcome_counter, getStat_incrStat] <;> ring

theorem recordOutcomes_total (ks : List OutcomeKind) :
    ∀ s : Stats, getStat (recordOutcomes s ks) "total" =
      getStat s "total" +
        (ks.countP (fun k => decide (k ≠ OutcomeKind.Failed)) : Int) := by
  induction ks with
  | nil => intro s; simp [recordOutcomes]
  | cons k ks ih =>
      intro s
      simp only [recordOutcomes]
      rw [ih, getStat_recordOutcome_total, List.countP_cons]
      by_cases h : k = OutcomeKind.Failed
      · simp [h]
      · simp [h]
        ring

theorem recordOutcomes_counter (ks : List OutcomeKind) (j : OutcomeKind) :
    ∀ s : Stats, getStat (recordOutcomes s ks) (outcome_counter j) =
      getStat s (outcome_counter j) +
        (ks.countP (fun k => decide (k = j)) : Int) := by
  induction ks with
  | nil => intro s; simp [recordOutcomes]
  | cons k ks ih =>
      intro s
      simp only [recordOutcomes]
      rw [ih, getStat_recordOutcome_counter, List.countP_cons]
      by_cases h : k = j
      · subst h
        simp
        ring
      · have h2 : ¬ (j = k) := fun hjk => h hjk.symm
        simp [h, h2]

theorem recordOutcomes_sum (ks : List OutcomeKind) :
    ∀ s : Stats,
      getStat (recordOutcomes s ks) "a_to_b" +
        getStat (recordOutcomes s ks) "b_to_a" +
        getStat (recordOutcomes s ks) "other_to_dual" +
        getStat (recordOutcomes s ks) "partial_dual" +
        getStat (recordOutcomes s ks) "failed" =
      getStat s "a_to_b" + getStat s "b_to_a" + getStat s "other_to_dual" +
        getStat s "partial_dual" + getStat s "failed" + (ks.length : Int) := by
  induction ks with
  | nil => intro s; simp [recordOutcomes]
  | cons k ks ih =>
      intro s
      simp only [recordOutcomes, List.length_cons]
      rw [ih, sum_getStat_recordOutcome]
      push_cast
      ring

/-- C4: over any sequence of N processed messages with outcomes drawn from
the five kinds, starting from fresh counters, `total` equals the number of
non-Failed outcomes (messages with at least one reply part), each
outcome-specific named counter equals the number of messages with exactly
that outcome (so exactly one named counter is bumped per message,
mutually exclusively), and the named outcome counters sum to N. -/
theorem C4_stats_aggregation (ks : List OutcomeKind) :
    getStat (recordOutcomes [] ks) "total" =
      (ks.countP (fun k => decide (k ≠ OutcomeKind.Failed)) : Int) ∧
    (∀ j : OutcomeKind, getStat (recordOutcomes [] ks) (outcome_counter j) =
      (ks.countP (fun k => decide (k = j)) : Int)) ∧
    getStat (recordOutcomes [] ks) "a_to_b" +
      getStat (recordOutcomes [] ks) "b_to_a" +
      getStat (recordOutcomes [] ks) "other_to_dual" +
      getStat (recordOutcomes [] ks) "partial_dual" +
      getStat (recordOutcomes [] ks) "failed" = (ks.length : Int) := by
  refine ⟨?_, fun j => ?_, ?_⟩
  · simpa [getStat] using recordOutcomes_total ks []
  · simpa [getStat] using recordOutcomes_counter ks j []
  · simpa [getStat] using recordOutcomes_sum ks []
